import Mathlib

/-!
Verification of the on-screen ruler's geometric constraint solver.

The Rust source (src/main.rs, src/geom.rs) computes over `f64`; we embed its
arithmetic over the real numbers, which matches the exact-real reading used
throughout the specification (distances, roots, normalization).  2D vectors
(`glam::DVec2`) become the structure `DVec2` below; every function keeps the
shape and the names of its Rust counterpart.
-/

noncomputable section

namespace Ruler

/-- Embedding of `glam::DVec2`: a pair of real coordinates. -/
structure DVec2 where
  x : ℝ
  y : ℝ

namespace DVec2

instance : Add DVec2 := ⟨fun p q => ⟨p.x + q.x, p.y + q.y⟩⟩

instance : Sub DVec2 := ⟨fun p q => ⟨p.x - q.x, p.y - q.y⟩⟩

instance : SMul ℝ DVec2 := ⟨fun c p => ⟨c * p.x, c * p.y⟩⟩

/-- `DVec2::ZERO`. -/
def ZERO : DVec2 := ⟨0, 0⟩

/-- `DVec2::X`. -/
def X : DVec2 := ⟨1, 0⟩

/-- `DVec2::Y`. -/
def Y : DVec2 := ⟨0, 1⟩

/-- `glam::DVec2::dot`. -/
def dot (p q : DVec2) : ℝ := p.x * q.x + p.y * q.y

/-- `glam::DVec2::length_squared`. -/
def length_squared (p : DVec2) : ℝ := p.dot p

/-- `glam::DVec2::length`. -/
def length (p : DVec2) : ℝ := Real.sqrt p.length_squared

/-- `glam::DVec2::distance_squared`: squared length of `self - rhs`. -/
def distance_squared (p q : DVec2) : ℝ := (p - q).length_squared

/-- `glam::DVec2::distance`: length of `self - rhs`. -/
def distance (p q : DVec2) : ℝ := (p - q).length

/-- `glam::DVec2::try_normalize`: `1 / length` is finite and positive exactly
when the length is positive, in which case the vector is scaled by it. -/
def try_normalize (p : DVec2) : Option DVec2 :=
  if 0 < p.length then some ((1 / p.length) • p) else none

/-- `glam::DVec2::clamp`: componentwise `self.max(lo).min(hi)`. -/
def clamp (p lo hi : DVec2) : DVec2 :=
  ⟨min (max p.x lo.x) hi.x, min (max p.y lo.y) hi.y⟩

end DVec2

/-- `f64::signum` as it is exercised by the source: `signum(+0.0) = 1.0`
(negative zero never arises in the reachable computations, since the sign
expressions are plain products and differences of input coordinates). -/
def rsign (t : ℝ) : ℝ := if t < 0 then -1 else 1

/-- `geom.rs::solve_quadratic`. -/
def solve_quadratic (a b c : ℝ) : Option (ℝ × ℝ) :=
  let d := b * b - 4 * a * c
  if d < 0 then
    none
  else
    let sqrt_d := Real.sqrt d
    some ((-b - sqrt_d) / (2 * a), (-b + sqrt_d) / (2 * a))

/-- `geom.rs::circle_intersect`. -/
def circle_intersect (center : DVec2) (radius : ℝ) (start dir : DVec2) :
    Option (DVec2 × DVec2) :=
  let a := dir.length_squared
  let b := 2 * dir.dot (start - center)
  let c := start.distance_squared center - radius ^ 2
  (solve_quadratic a b c).map fun s => (start + s.1 • dir, start + s.2 • dir)

/-- Lines 4-16 of `geom.rs::closest_point_below_line_on_circle`: the oriented
implicit form `(a, b, c)` of the boundary line, scaled to unit normal and
flipped so that evaluating it at `center` is non-negative. -/
def line_coeffs (start dir center : DVec2) : ℝ × ℝ × ℝ :=
  let a := dir.y
  let b := -dir.x
  let c := start.y * dir.x - start.x * dir.y
  let coefficient := -Real.sqrt (a * a + b * b) * rsign c
  let a := a * coefficient
  let b := b * coefficient
  let c := c * coefficient
  if a * center.x + b * center.y + c < 0 then (-a, -b, -c) else (a, b, c)

/-- `geom.rs::closest_point_below_line_on_circle`. -/
def closest_point_below_line_on_circle
    (center : DVec2) (radius : ℝ) (start dir point : DVec2) : DVec2 :=
  let abc := line_coeffs start dir center
  if abc.1 * point.x + abc.2.1 * point.y + abc.2.2 > 0 then
    point
  else
    match circle_intersect center radius start dir with
    | some (p1, p2) =>
        if p1.distance_squared point < p2.distance_squared point then p1 else p2
    | none => point

/-- `closest_point_below_line_on_circle` paired with a Boolean recording
whether the fail-soft branch (the `println!` diagnostic for a missing
intersection) was taken. -/
def closest_point_below_line_on_circle_logged
    (center : DVec2) (radius : ℝ) (start dir point : DVec2) : DVec2 × Bool :=
  let abc := line_coeffs start dir center
  if abc.1 * point.x + abc.2.1 * point.y + abc.2.2 > 0 then
    (point, false)
  else
    match circle_intersect center radius start dir with
    | some (p1, p2) =>
        (if p1.distance_squared point < p2.distance_squared point then p1 else p2,
         false)
    | none => (point, true)

/-- `main.rs::MIN_LENGTH`. -/
def MIN_LENGTH : ℝ := 200

/-- `main.rs::RULER_HALF_WIDTH` (the spec's `BOUNDARY_MARGIN`). -/
def RULER_HALF_WIDTH : ℝ := 40

/-- The `unwrap_or(DVec2::new(1.0, 0.0))` / `unwrap_or(DVec2::X)` pattern of
`handle_drag`: normalize, falling back to `(1, 0)` on a degenerate vector. -/
def normalize_or (p : DVec2) : DVec2 := p.try_normalize.getD ⟨1, 0⟩

/-- Body of `handle_drag`'s `if fix_distance` branch (main.rs lines 414-423):
re-project onto the circle of the pre-drag radius around `other`, then apply
the four edge arc clamps in the source's textual order. -/
def drag_fix_distance (dragging other v screen_size : DVec2) : DVec2 :=
  let new_diff_normalized := normalize_or (v - other)
  let old_distance := dragging.distance other
  let v := other + old_distance • new_diff_normalized
  let v := closest_point_below_line_on_circle other old_distance DVec2.ZERO DVec2.X v
  let v := closest_point_below_line_on_circle other old_distance screen_size DVec2.X v
  let v := closest_point_below_line_on_circle other old_distance DVec2.ZERO DVec2.Y v
  closest_point_below_line_on_circle other old_distance screen_size DVec2.Y v

/-- Body of `handle_drag`'s `if fix_angle` branch (main.rs lines 425-428). -/
def drag_fix_angle (dragging other v : DVec2) : DVec2 :=
  let old_diff_normalized := normalize_or (dragging - other)
  other + (v.distance other) • old_diff_normalized

/-- Minimum-length enforcement of `handle_drag` (main.rs lines 430-433). -/
def drag_min_length (other v : DVec2) : DVec2 :=
  if other.distance_squared v < MIN_LENGTH ^ 2 then
    let diff_normalized := normalize_or (v - other)
    other + MIN_LENGTH • diff_normalized
  else
    v

/-- `main.rs::handle_drag` up to, but not including, its final componentwise
clamp (line 435). -/
def handle_drag_pre (dragging other cursor screen_size : DVec2)
    (fix_distance fix_angle : Bool) : DVec2 :=
  let v := cursor
  let v := if fix_distance then drag_fix_distance dragging other v screen_size else v
  let v := if fix_angle then drag_fix_angle dragging other v else v
  drag_min_length other v

/-- `main.rs::handle_drag`: the value assigned to `*dragging`. -/
def handle_drag (dragging other cursor screen_size : DVec2)
    (fix_distance fix_angle : Bool) : DVec2 :=
  DVec2.clamp (handle_drag_pre dragging other cursor screen_size fix_distance fix_angle)
    DVec2.ZERO screen_size

/-- Modelled from the spec: the claimed variant of `resolve` in which the four
edge arc clamps are applied in the order left (`x = 0`), right
(`x = screenSize.x`), top (`y = 0`), bottom (`y = screenSize.y`), each with
circle `(anchor, oldDistance)`; the remaining steps are as in `handle_drag`. -/
def handle_drag_spec_order (dragging other cursor screen_size : DVec2)
    (fix_distance fix_angle : Bool) : DVec2 :=
  let v := cursor
  let v :=
    if fix_distance then
      let new_diff_normalized := normalize_or (v - other)
      let old_distance := dragging.distance other
      let v := other + old_distance • new_diff_normalized
      let v := closest_point_below_line_on_circle other old_distance DVec2.ZERO DVec2.Y v
      let v := closest_point_below_line_on_circle other old_distance screen_size DVec2.Y v
      let v := closest_point_below_line_on_circle other old_distance DVec2.ZERO DVec2.X v
      closest_point_below_line_on_circle other old_distance screen_size DVec2.X v
    else v
  let v := if fix_angle then drag_fix_angle dragging other v else v
  let v := drag_min_length other v
  DVec2.clamp v DVec2.ZERO screen_size

/-- Modelled from the spec: the rival reading of step 3 of `resolve` rejected
by the claim, in which the angle lock reuses the pre-drag distance
`distance(previousPoint, anchor)` instead of the candidate's current
distance. -/
def handle_drag_angle_pre_drag (dragging other cursor screen_size : DVec2)
    (fix_distance fix_angle : Bool) : DVec2 :=
  let v := cursor
  let v := if fix_distance then drag_fix_distance dragging other v screen_size else v
  let v :=
    if fix_angle then
      other + (dragging.distance other) • normalize_or (dragging - other)
    else v
  DVec2.clamp (drag_min_length other v) DVec2.ZERO screen_size

/-- Truncation toward zero, the rounding used by Rust `as` casts from `f64`
to an integer type. -/
def rtz (t : ℝ) : ℤ := if 0 ≤ t then ⌊t⌋ else ⌈t⌉

/-- Rust `f64 as i16`: truncate toward zero, saturating at the type bounds. -/
def as_i16 (t : ℝ) : ℤ := min 32767 (max (-32768) (rtz t))

/-- Rust `f64 as u16`: truncate toward zero, saturating at the type bounds. -/
def as_u16 (t : ℝ) : ℤ := min 65535 (max 0 (rtz t))

/-- `main.rs::WindowGeometry` (fields `x y : i16`, `w h : u16`, all embedded
as integers). -/
structure WindowGeometry where
  x : ℤ
  y : ℤ
  w : ℤ
  h : ℤ

/-- `main.rs::compute_window_geometry`. -/
def compute_window_geometry (pfrom pto : DVec2) : WindowGeometry :=
  let min_x := min pfrom.x pto.x - RULER_HALF_WIDTH
  let max_x := max pfrom.x pto.x + RULER_HALF_WIDTH
  let min_y := min pfrom.y pto.y - RULER_HALF_WIDTH
  let max_y := max pfrom.y pto.y + RULER_HALF_WIDTH
  ⟨as_i16 min_x, as_i16 min_y, as_u16 (max_x - min_x), as_u16 (max_y - min_y)⟩

/-- Modelled from the spec: `BoundingGeometryCalculator.bounds` as the claim
states it, with plain truncation toward zero and no saturation. -/
def bounds_spec (pfrom pto : DVec2) : WindowGeometry :=
  let min_x := min pfrom.x pto.x - RULER_HALF_WIDTH
  let max_x := max pfrom.x pto.x + RULER_HALF_WIDTH
  let min_y := min pfrom.y pto.y - RULER_HALF_WIDTH
  let max_y := max pfrom.y pto.y + RULER_HALF_WIDTH
  ⟨rtz min_x, rtz min_y, rtz (max_x - min_x), rtz (max_y - min_y)⟩

end Ruler

namespace Ruler

/-! ### Basic lemmas about the vector embedding -/

@[simp] theorem add_x (p q : DVec2) : (p + q).x = p.x + q.x := rfl

@[simp] theorem add_y (p q : DVec2) : (p + q).y = p.y + q.y := rfl

@[simp] theorem sub_x (p q : DVec2) : (p - q).x = p.x - q.x := rfl

@[simp] theorem sub_y (p q : DVec2) : (p - q).y = p.y - q.y := rfl

@[simp] theorem smul_x (c : ℝ) (p : DVec2) : (c • p).x = c * p.x := rfl

@[simp] theorem smul_y (c : ℝ) (p : DVec2) : (c • p).y = c * p.y := rfl

@[simp] theorem ZERO_x : DVec2.ZERO.x = 0 := rfl

@[simp] theorem ZERO_y : DVec2.ZERO.y = 0 := rfl

@[simp] theorem X_x : DVec2.X.x = 1 := rfl

@[simp] theorem X_y : DVec2.X.y = 0 := rfl

@[simp] theorem Y_x : DVec2.Y.x = 0 := rfl

@[simp] theorem Y_y : DVec2.Y.y = 1 := rfl

@[ext] theorem vec_ext {p q : DVec2} (hx : p.x = q.x) (hy : p.y = q.y) : p = q := by
  cases p
  cases q
  cases hx
  cases hy
  rfl

/-- Evaluate a square root from an exhibited square. -/
theorem sqrt_eval {x y : ℝ} (hy : 0 ≤ y) (h : y ^ 2 = x) : Real.sqrt x = y := by
  rw [← h, Real.sqrt_sq hy]

/-! ### C2: the result always lies within the screen rectangle -/

/-- C2: for every input whose screen size is componentwise non-negative, the
point returned by `handle_drag` lies within `[0, 0] .. screenSize`
componentwise, regardless of the lock flags. -/
theorem resolve_within_screen (dragging other cursor screen_size : DVec2)
    (fix_distance fix_angle : Bool)
    (hx : 0 ≤ screen_size.x) (hy : 0 ≤ screen_size.y) :
    0 ≤ (handle_drag dragging other cursor screen_size fix_distance fix_angle).x ∧
    (handle_drag dragging other cursor screen_size fix_distance fix_angle).x ≤
      screen_size.x ∧
    0 ≤ (handle_drag dragging other cursor screen_size fix_distance fix_angle).y ∧
    (handle_drag dragging other cursor screen_size fix_distance fix_angle).y ≤
      screen_size.y := by
  unfold handle_drag DVec2.clamp
  refine ⟨le_min (le_trans ?_ (le_max_right _ _)) hx, min_le_right _ _,
    le_min (le_trans ?_ (le_max_right _ _)) hy, min_le_right _ _⟩ <;> simp [DVec2.ZERO]

/-- Witness for C2 at a concrete input. -/
theorem resolve_within_screen_witness :
    0 ≤ (handle_drag ⟨300, 0⟩ ⟨0, 0⟩ ⟨300, 0⟩ ⟨1000, 1000⟩ false false).x ∧
    (handle_drag ⟨300, 0⟩ ⟨0, 0⟩ ⟨300, 0⟩ ⟨1000, 1000⟩ false false).x ≤ 1000 ∧
    0 ≤ (handle_drag ⟨300, 0⟩ ⟨0, 0⟩ ⟨300, 0⟩ ⟨1000, 1000⟩ false false).y ∧
    (handle_drag ⟨300, 0⟩ ⟨0, 0⟩ ⟨300, 0⟩ ⟨1000, 1000⟩ false false).y ≤ 1000 :=
  resolve_within_screen ⟨300, 0⟩ ⟨0, 0⟩ ⟨300, 0⟩ ⟨1000, 1000⟩ false false
    (by norm_num) (by norm_num)

/-! ### C10: with both locks off the result does not depend on the previous
point -/

/-- C10: when both lock flags are false, `handle_drag` is independent of the
dragged point's previous position, and equals the cursor passed through
minimum-length enforcement and the componentwise screen clamp. -/
theorem resolve_unlocked_ignores_previous (p₁ p₂ other cursor screen_size : DVec2) :
    handle_drag p₁ other cursor screen_size false false =
      handle_drag p₂ other cursor screen_size false false ∧
    handle_drag p₁ other cursor screen_size false false =
      DVec2.clamp (drag_min_length other cursor) DVec2.ZERO screen_size :=
  ⟨rfl, rfl⟩

/-! ### C9: the fail-soft branch of the arc clamp -/

/-- C9: when the input point is not on the permitted side and the circle/line
intersection is empty, the arc clamp takes the diagnostic branch and returns
the input point unchanged (the function is total, so no error is raised). -/
theorem clamp_fail_soft_returns_input (center : DVec2) (radius : ℝ)
    (start dir point : DVec2)
    (hside : ¬((line_coeffs start dir center).1 * point.x +
        (line_coeffs start dir center).2.1 * point.y +
        (line_coeffs start dir center).2.2 > 0))
    (hnone : circle_intersect center radius start dir = none) :
    closest_point_below_line_on_circle center radius start dir point = point ∧
    closest_point_below_line_on_circle_logged center radius start dir point =
      (point, true) := by
  unfold closest_point_below_line_on_circle closest_point_below_line_on_circle_logged
  rw [hnone]
  exact ⟨by rw [if_neg hside], by rw [if_neg hside]⟩

/-- The oriented coefficients of the boundary line through `(0, -20)` with
direction `(1, 0)` relative to the circle center `(0, 0)`. -/
theorem line_coeffs_y_neg20 :
    line_coeffs ⟨0, -20⟩ ⟨1, 0⟩ ⟨0, 0⟩ = (0, 1, 20) := by
  unfold line_coeffs rsign
  norm_num [Real.sqrt_one]

/-- A radius-5 circle at the origin misses the line `y = -20`. -/
theorem circle_intersect_r5_none :
    circle_intersect ⟨0, 0⟩ 5 ⟨0, -20⟩ ⟨1, 0⟩ = none := by
  simp only [circle_intersect, solve_quadratic, DVec2.distance_squared,
    DVec2.length_squared, DVec2.dot, sub_x, sub_y]
  norm_num

/-- Witness for C9 at a concrete input on the forbidden side of a line that
misses the circle. -/
theorem clamp_fail_soft_witness :
    closest_point_below_line_on_circle ⟨0, 0⟩ 5 ⟨0, -20⟩ ⟨1, 0⟩ ⟨0, -30⟩ =
      ⟨0, -30⟩ ∧
    closest_point_below_line_on_circle_logged ⟨0, 0⟩ 5 ⟨0, -20⟩ ⟨1, 0⟩ ⟨0, -30⟩ =
      (⟨0, -30⟩, true) :=
  clamp_fail_soft_returns_input ⟨0, 0⟩ 5 ⟨0, -20⟩ ⟨1, 0⟩ ⟨0, -30⟩
    (by rw [line_coeffs_y_neg20]; norm_num) circle_intersect_r5_none

end Ruler

namespace Ruler

/-! ### C6: the quadratic solver -/

/-- C6 (amended): for `a ≠ 0`, `solve_quadratic` returns `none` exactly when
the discriminant is negative and otherwise the pair
`((-b - sqrt d) / (2a), (-b + sqrt d) / (2a))`; the first component is less
than or equal to the second when `0 < a` (for `a < 0` the order is reversed);
`solve(1, 0, -4) = (-2, 2)` and `solve(1, 0, 4)` has no result. -/
theorem solve_quadratic_spec (a b c : ℝ) (_ha : a ≠ 0) :
    (solve_quadratic a b c = none ↔ b * b - 4 * a * c < 0) ∧
    (0 ≤ b * b - 4 * a * c →
      solve_quadratic a b c =
        some ((-b - Real.sqrt (b * b - 4 * a * c)) / (2 * a),
              (-b + Real.sqrt (b * b - 4 * a * c)) / (2 * a))) ∧
    (0 < a → ∀ p : ℝ × ℝ, solve_quadratic a b c = some p → p.1 ≤ p.2) ∧
    solve_quadratic 1 0 (-4) = some (-2, 2) ∧
    solve_quadratic 1 0 4 = none := by
  refine ⟨?_, ?_, ?_, ?_, ?_⟩
  · simp only [solve_quadratic]
    split_ifs with h <;> simp [h]
  · intro hd
    simp only [solve_quadratic]
    rw [if_neg (not_lt.mpr hd)]
  · intro hapos p hp
    simp only [solve_quadratic] at hp
    split_ifs at hp with h
    have h2a : (0 : ℝ) < 2 * a := by linarith
    have hs : 0 ≤ Real.sqrt (b * b - 4 * a * c) := Real.sqrt_nonneg _
    rw [← Option.some.inj hp]
    exact (div_le_div_iff_of_pos_right h2a).mpr (by linarith)
  · simp only [solve_quadratic]
    rw [show (0 : ℝ) * 0 - 4 * 1 * (-4) = 16 by norm_num]
    rw [if_neg (by norm_num), sqrt_eval (by norm_num) (show (4 : ℝ) ^ 2 = 16 by norm_num)]
    norm_num
  · simp only [solve_quadratic]
    rw [if_pos (by norm_num)]

/-- Witness for C6: the two concrete evaluations from the spec. -/
theorem solve_quadratic_spec_witness :
    solve_quadratic 1 0 (-4) = some (-2, 2) ∧ solve_quadratic 1 0 4 = none :=
  ⟨(solve_quadratic_spec 1 0 (-4) (by norm_num)).2.2.2.1,
   (solve_quadratic_spec 1 0 4 (by norm_num)).2.2.2.2⟩

/-- Counterexample for C6 as frozen: with `a = -1` (nonzero), the returned
components come in decreasing order, refuting `t1 <= t2`. -/
theorem solve_quadratic_order_counterexample :
    solve_quadratic (-1) 0 4 = some (2, -2) ∧ ¬((2 : ℝ) ≤ -2) := by
  constructor
  · simp only [solve_quadratic]
    rw [show (0 : ℝ) * 0 - 4 * (-1) * 4 = 16 by norm_num]
    rw [if_neg (by norm_num), sqrt_eval (by norm_num) (show (4 : ℝ) ^ 2 = 16 by norm_num)]
    norm_num
  · norm_num

end Ruler

namespace Ruler

/-! ### Length computation helpers -/

theorem length_squared_nonneg (p : DVec2) : 0 ≤ p.length_squared :=
  add_nonneg (mul_self_nonneg _) (mul_self_nonneg _)

theorem smul_length_squared (c : ℝ) (p : DVec2) :
    (c • p).length_squared = c ^ 2 * p.length_squared := by
  simp only [DVec2.length_squared, DVec2.dot, smul_x, smul_y]
  ring

theorem smul_length (c : ℝ) (p : DVec2) : (c • p).length = |c| * p.length := by
  unfold DVec2.length
  rw [smul_length_squared, Real.sqrt_mul (sq_nonneg c), Real.sqrt_sq_eq_abs]

/-- Evaluate a vector length from an exhibited square. -/
theorem length_eval {p : DVec2} {l : ℝ} (hl : 0 ≤ l)
    (h : p.x * p.x + p.y * p.y = l ^ 2) : p.length = l := by
  unfold DVec2.length DVec2.length_squared DVec2.dot
  rw [h, Real.sqrt_sq hl]

/-- Evaluate a distance from an exhibited square. -/
theorem distance_eval {p q : DVec2} {l : ℝ} (hl : 0 ≤ l)
    (h : (p.x - q.x) * (p.x - q.x) + (p.y - q.y) * (p.y - q.y) = l ^ 2) :
    p.distance q = l :=
  length_eval hl h

/-- Evaluate `normalize_or` on a vector of known positive length. -/
theorem normalize_or_eval {p : DVec2} {l : ℝ} (hl : 0 < l) (h : p.length = l) :
    normalize_or p = (1 / l) • p := by
  unfold normalize_or DVec2.try_normalize
  rw [h, if_pos hl]
  rfl

theorem normalize_or_length (p : DVec2) : (normalize_or p).length = 1 := by
  unfold normalize_or DVec2.try_normalize
  split_ifs with h
  · rw [Option.getD_some, smul_length, abs_of_pos (by positivity), one_div,
      inv_mul_cancel₀ (ne_of_gt h)]
  · rw [Option.getD_none]
    exact length_eval (by norm_num) (by norm_num)

/-- The distance from `o` to `o + c • u` is `|c|` times the length of `u`. -/
theorem dist_add_smul (o u : DVec2) (c : ℝ) :
    o.distance (o + c • u) = |c| * u.length := by
  have hls : (o - (o + c • u)).length_squared = (c • u).length_squared := by
    simp only [DVec2.length_squared, DVec2.dot, sub_x, sub_y, add_x, add_y,
      smul_x, smul_y]
    ring
  unfold DVec2.distance DVec2.length
  rw [hls, smul_length_squared, Real.sqrt_mul (sq_nonneg c), Real.sqrt_sq_eq_abs]

/-! ### C1: the minimum-length invariant -/

/-- Minimum-length enforcement leaves the candidate at distance at least
`MIN_LENGTH` from the anchor. -/
theorem min_length_drag_min_length (other v : DVec2) :
    MIN_LENGTH ≤ other.distance (drag_min_length other v) := by
  unfold drag_min_length
  split_ifs with h
  · rw [dist_add_smul, normalize_or_length, mul_one,
      abs_of_nonneg (by norm_num [MIN_LENGTH])]
  · have h' : MIN_LENGTH ^ 2 ≤ other.distance_squared v := not_lt.mp h
    exact (Real.le_sqrt (by norm_num [MIN_LENGTH])
      (length_squared_nonneg _)).mpr h'

/-- C1 (amended): the point `handle_drag` computes just before its final
componentwise screen clamp is always at distance at least `MIN_LENGTH` from
the anchor; the clamp itself (the constraint of last resort) may then bring
the returned point closer than `MIN_LENGTH`. -/
theorem min_length_before_clamp (dragging other cursor screen_size : DVec2)
    (fix_distance fix_angle : Bool) :
    MIN_LENGTH ≤ other.distance
      (handle_drag_pre dragging other cursor screen_size fix_distance fix_angle) :=
  min_length_drag_min_length other _

/-- Counterexample for C1 as frozen: dragging toward a nearby cursor with all
locks off on a small screen, the minimum-length extension is clamped back so
that the returned point sits only 100 away from the anchor. -/
theorem resolve_min_length_counterexample :
    DVec2.distance ⟨0, 0⟩
      (handle_drag ⟨300, 0⟩ ⟨0, 0⟩ ⟨50, 0⟩ ⟨100, 100⟩ false false) < MIN_LENGTH := by
  have hlen : ((⟨50, 0⟩ : DVec2) - ⟨0, 0⟩).length = 50 :=
    length_eval (by norm_num) (by norm_num)
  have hmin : drag_min_length ⟨0, 0⟩ ⟨50, 0⟩ = ⟨200, 0⟩ := by
    unfold drag_min_length
    rw [if_pos (by norm_num [DVec2.distance_squared, DVec2.length_squared,
      DVec2.dot, MIN_LENGTH])]
    rw [normalize_or_eval (by norm_num) hlen]
    ext <;> norm_num [MIN_LENGTH]
  have hdrag : handle_drag ⟨300, 0⟩ ⟨0, 0⟩ ⟨50, 0⟩ ⟨100, 100⟩ false false =
      ⟨100, 0⟩ := by
    show DVec2.clamp (drag_min_length ⟨0, 0⟩ ⟨50, 0⟩) DVec2.ZERO ⟨100, 100⟩ = ⟨100, 0⟩
    rw [hmin]
    norm_num [DVec2.clamp, DVec2.ZERO]
  rw [hdrag, distance_eval (l := 100) (by norm_num) (by norm_num)]
  norm_num [MIN_LENGTH]

end Ruler

namespace Ruler

/-! ### Generic evaluation helpers for the arc clamp -/

/-- The arc clamp leaves a point on the strictly permitted side unchanged. -/
theorem cpblc_unchanged (center : DVec2) (radius : ℝ) (start dir point : DVec2)
    (hside : (line_coeffs start dir center).1 * point.x +
      (line_coeffs start dir center).2.1 * point.y +
      (line_coeffs start dir center).2.2 > 0) :
    closest_point_below_line_on_circle center radius start dir point = point :=
  if_pos hside

/-- The arc clamp snaps a forbidden-side point to the nearer of the two
circle/line intersection points. -/
theorem cpblc_snap (center : DVec2) (radius : ℝ) (start dir point p1 p2 : DVec2)
    (hside : ¬((line_coeffs start dir center).1 * point.x +
      (line_coeffs start dir center).2.1 * point.y +
      (line_coeffs start dir center).2.2 > 0))
    (hint : circle_intersect center radius start dir = some (p1, p2)) :
    closest_point_below_line_on_circle center radius start dir point =
      if p1.distance_squared point < p2.distance_squared point then p1 else p2 := by
  unfold closest_point_below_line_on_circle
  rw [hint]
  exact if_neg hside

/-- Evaluate `solve_quadratic` on a non-negative discriminant with an
exhibited square root. -/
theorem solve_quadratic_eval {a b c s : ℝ} (hd : ¬(b * b - 4 * a * c < 0))
    (hs : Real.sqrt (b * b - 4 * a * c) = s) :
    solve_quadratic a b c = some ((-b - s) / (2 * a), (-b + s) / (2 * a)) := by
  simp only [solve_quadratic]
  rw [if_neg hd, hs]

/-! ### C4: the angle lock reuses the candidate's current distance -/

/-- C4: with `fixAngle` set, `handle_drag` replaces the candidate by
`anchor + normalize(previousPoint - anchor) * distance(candidate, anchor)`
where the distance is taken from the candidate as step 2 left it (the cursor
itself when `fixDistance` is off), not from the pre-drag distance; the rival
pre-drag-distance variant disagrees with the code at a concrete input. -/
theorem resolve_angle_uses_current_distance :
    (∀ (dragging other cursor screen_size : DVec2) (fix_distance : Bool),
      handle_drag dragging other cursor screen_size fix_distance true =
        DVec2.clamp
          (drag_min_length other
            (other +
              (DVec2.distance
                (if fix_distance then
                  drag_fix_distance dragging other cursor screen_size
                else cursor) other) • normalize_or (dragging - other)))
          DVec2.ZERO screen_size) ∧
    handle_drag ⟨300, 0⟩ ⟨0, 0⟩ ⟨400, 0⟩ ⟨1000, 1000⟩ false true ≠
      handle_drag_angle_pre_drag ⟨300, 0⟩ ⟨0, 0⟩ ⟨400, 0⟩ ⟨1000, 1000⟩ false true := by
  constructor
  · intro dragging other cursor screen_size fix_distance
    cases fix_distance <;> rfl
  · have hn : normalize_or ((⟨300, 0⟩ : DVec2) - ⟨0, 0⟩) =
        (1 / 300 : ℝ) • ((⟨300, 0⟩ : DVec2) - ⟨0, 0⟩) :=
      normalize_or_eval (by norm_num) (length_eval (by norm_num) (by norm_num))
    have hd400 : DVec2.distance (⟨400, 0⟩ : DVec2) ⟨0, 0⟩ = 400 :=
      distance_eval (by norm_num) (by norm_num)
    have hd300 : DVec2.distance (⟨300, 0⟩ : DVec2) ⟨0, 0⟩ = 300 :=
      distance_eval (by norm_num) (by norm_num)
    have hfa : drag_fix_angle ⟨300, 0⟩ ⟨0, 0⟩ ⟨400, 0⟩ = ⟨400, 0⟩ := by
      unfold drag_fix_angle
      rw [hn, hd400]
      ext <;> norm_num
    have h1 : handle_drag ⟨300, 0⟩ ⟨0, 0⟩ ⟨400, 0⟩ ⟨1000, 1000⟩ false true =
        ⟨400, 0⟩ := by
      show DVec2.clamp
        (drag_min_length ⟨0, 0⟩ (drag_fix_angle ⟨300, 0⟩ ⟨0, 0⟩ ⟨400, 0⟩))
        DVec2.ZERO ⟨1000, 1000⟩ = ⟨400, 0⟩
      rw [hfa]
      unfold drag_min_length
      rw [if_neg (by norm_num [DVec2.distance_squared, DVec2.length_squared,
        DVec2.dot, MIN_LENGTH])]
      ext <;> norm_num [DVec2.clamp, DVec2.ZERO]
    have hadd : (⟨0, 0⟩ : DVec2) + (300 : ℝ) • (1 / 300 : ℝ) •
        ((⟨300, 0⟩ : DVec2) - ⟨0, 0⟩) = ⟨300, 0⟩ := by
      ext <;> norm_num
    have h2 : handle_drag_angle_pre_drag ⟨300, 0⟩ ⟨0, 0⟩ ⟨400, 0⟩ ⟨1000, 1000⟩
        false true = ⟨300, 0⟩ := by
      show DVec2.clamp
        (drag_min_length ⟨0, 0⟩
          ((⟨0, 0⟩ : DVec2) + (DVec2.distance (⟨300, 0⟩ : DVec2) ⟨0, 0⟩) •
            normalize_or ((⟨300, 0⟩ : DVec2) - ⟨0, 0⟩)))
        DVec2.ZERO ⟨1000, 1000⟩ = ⟨300, 0⟩
      rw [hd300, hn, hadd]
      unfold drag_min_length
      rw [if_neg (by norm_num [DVec2.distance_squared, DVec2.length_squared,
        DVec2.dot, MIN_LENGTH])]
      ext <;> norm_num [DVec2.clamp, DVec2.ZERO]
    rw [h1, h2]
    exact fun h => absurd (congrArg DVec2.x h) (by norm_num)

/-! ### C5: the order of the four edge arc clamps -/

/-- C5 (amended): with `fixDistance` set, `handle_drag` applies the arc clamp
exactly four times in sequence, each with circle `(anchor, oldDistance)` and
each operating on the previous application's output, against the screen edges
in the order top (`y = 0`), bottom (`y = screenSize.y`), left (`x = 0`),
right (`x = screenSize.x`). -/
theorem resolve_edge_order (dragging other cursor screen_size : DVec2)
    (fix_angle : Bool) :
    handle_drag dragging other cursor screen_size true fix_angle =
      DVec2.clamp
        (drag_min_length other
          ((fun v => if fix_angle then drag_fix_angle dragging other v else v)
            (closest_point_below_line_on_circle other
              (dragging.distance other) screen_size DVec2.Y
              (closest_point_below_line_on_circle other
                (dragging.distance other) DVec2.ZERO DVec2.Y
                (closest_point_below_line_on_circle other
                  (dragging.distance other) screen_size DVec2.X
                  (closest_point_below_line_on_circle other
                    (dragging.distance other) DVec2.ZERO DVec2.X
                    (other + (dragging.distance other) •
                      normalize_or (cursor - other))))))))
        DVec2.ZERO screen_size := rfl

end Ruler

namespace Ruler

/-! ### Reduction of vector operations on literal coordinates -/

@[simp] theorem add_mk (a b c d : ℝ) :
    (DVec2.mk a b) + (DVec2.mk c d) = ⟨a + c, b + d⟩ := rfl

@[simp] theorem sub_mk (a b c d : ℝ) :
    (DVec2.mk a b) - (DVec2.mk c d) = ⟨a - c, b - d⟩ := rfl

@[simp] theorem smul_mk (c a b : ℝ) : c • (DVec2.mk a b) = ⟨c * a, c * b⟩ := rfl

@[simp] theorem ZERO_def : DVec2.ZERO = ⟨0, 0⟩ := rfl

@[simp] theorem X_def : DVec2.X = ⟨1, 0⟩ := rfl

@[simp] theorem Y_def : DVec2.Y = ⟨0, 1⟩ := rfl

/-! ### Oriented line coefficients of the four screen edges, anchor
`(120, -120)`, screen `(1000, 1000)` -/

theorem lc_top_c5 : line_coeffs DVec2.ZERO DVec2.X ⟨120, -120⟩ = (0, -1, 0) := by
  unfold line_coeffs rsign
  norm_num [Real.sqrt_one]

theorem lc_bottom_c5 :
    line_coeffs ⟨1000, 1000⟩ DVec2.X ⟨120, -120⟩ = (0, -1, 1000) := by
  unfold line_coeffs rsign
  norm_num [Real.sqrt_one]

theorem lc_left_c5 : line_coeffs DVec2.ZERO DVec2.Y ⟨120, -120⟩ = (1, 0, 0) := by
  unfold line_coeffs rsign
  norm_num [Real.sqrt_one]

theorem lc_right_c5 :
    line_coeffs ⟨1000, 1000⟩ DVec2.Y ⟨120, -120⟩ = (-1, 0, 1000) := by
  unfold line_coeffs rsign
  norm_num [Real.sqrt_one]

/-! ### Circle/line intersections for the circle `((120, -120), 200)` -/

theorem ci_y0_c5 :
    circle_intersect ⟨120, -120⟩ 200 DVec2.ZERO DVec2.X =
      some (⟨-40, 0⟩, ⟨280, 0⟩) := by
  have hq : solve_quadratic 1 (-240) (-11200) = some (-40, 280) := by
    rw [solve_quadratic_eval (s := 320) (by norm_num)
      (sqrt_eval (by norm_num) (by norm_num))]
    norm_num
  have h1 : DVec2.length_squared DVec2.X = 1 := by
    norm_num [DVec2.length_squared, DVec2.dot]
  have h2 : 2 * DVec2.dot DVec2.X (DVec2.ZERO - ⟨120, -120⟩) = -240 := by
    norm_num [DVec2.dot]
  have h3 : DVec2.distance_squared DVec2.ZERO (⟨120, -120⟩ : DVec2) -
      (200 : ℝ) ^ 2 = -11200 := by
    norm_num [DVec2.distance_squared, DVec2.length_squared, DVec2.dot]
  simp only [circle_intersect]
  rw [h1, h2, h3, hq]
  norm_num

theorem ci_x0_c5 :
    circle_intersect ⟨120, -120⟩ 200 DVec2.ZERO DVec2.Y =
      some (⟨0, -280⟩, ⟨0, 40⟩) := by
  have hq : solve_quadratic 1 240 (-11200) = some (-280, 40) := by
    rw [solve_quadratic_eval (s := 320) (by norm_num)
      (sqrt_eval (by norm_num) (by norm_num))]
    norm_num
  have h1 : DVec2.length_squared DVec2.Y = 1 := by
    norm_num [DVec2.length_squared, DVec2.dot]
  have h2 : 2 * DVec2.dot DVec2.Y (DVec2.ZERO - ⟨120, -120⟩) = 240 := by
    norm_num [DVec2.dot]
  have h3 : DVec2.distance_squared DVec2.ZERO (⟨120, -120⟩ : DVec2) -
      (200 : ℝ) ^ 2 = -11200 := by
    norm_num [DVec2.distance_squared, DVec2.length_squared, DVec2.dot]
  simp only [circle_intersect]
  rw [h1, h2, h3, hq]
  norm_num

/-! ### The individual edge clamps at the inputs of the C5 trace -/

theorem clamp_top_c5 :
    closest_point_below_line_on_circle ⟨120, -120⟩ 200 DVec2.ZERO DVec2.X
      ⟨0, 40⟩ = ⟨-40, 0⟩ := by
  rw [cpblc_snap ⟨120, -120⟩ 200 DVec2.ZERO DVec2.X ⟨0, 40⟩ ⟨-40, 0⟩ ⟨280, 0⟩
    (by rw [lc_top_c5]; norm_num) ci_y0_c5]
  rw [if_pos (by norm_num [DVec2.distance_squared, DVec2.length_squared,
    DVec2.dot])]

theorem clamp_bottom_c5 :
    closest_point_below_line_on_circle ⟨120, -120⟩ 200 ⟨1000, 1000⟩ DVec2.X
      ⟨-40, 0⟩ = ⟨-40, 0⟩ :=
  cpblc_unchanged ⟨120, -120⟩ 200 ⟨1000, 1000⟩ DVec2.X ⟨-40, 0⟩
    (by rw [lc_bottom_c5]; norm_num)

theorem clamp_left_c5_snap :
    closest_point_below_line_on_circle ⟨120, -120⟩ 200 DVec2.ZERO DVec2.Y
      ⟨-40, 0⟩ = ⟨0, 40⟩ := by
  rw [cpblc_snap ⟨120, -120⟩ 200 DVec2.ZERO DVec2.Y ⟨-40, 0⟩ ⟨0, -280⟩ ⟨0, 40⟩
    (by rw [lc_left_c5]; norm_num) ci_x0_c5]
  rw [if_neg (by norm_num [DVec2.distance_squared, DVec2.length_squared,
    DVec2.dot])]

theorem clamp_right_c5 :
    closest_point_below_line_on_circle ⟨120, -120⟩ 200 ⟨1000, 1000⟩ DVec2.Y
      ⟨0, 40⟩ = ⟨0, 40⟩ :=
  cpblc_unchanged ⟨120, -120⟩ 200 ⟨1000, 1000⟩ DVec2.Y ⟨0, 40⟩
    (by rw [lc_right_c5]; norm_num)

theorem clamp_left_c5_fixed :
    closest_point_below_line_on_circle ⟨120, -120⟩ 200 DVec2.ZERO DVec2.Y
      ⟨0, 40⟩ = ⟨0, 40⟩ := by
  rw [cpblc_snap ⟨120, -120⟩ 200 DVec2.ZERO DVec2.Y ⟨0, 40⟩ ⟨0, -280⟩ ⟨0, 40⟩
    (by rw [lc_left_c5]; norm_num) ci_x0_c5]
  rw [if_neg (by norm_num [DVec2.distance_squared, DVec2.length_squared,
    DVec2.dot])]

/-- Counterexample for C5 as frozen: applying the four edge clamps in the
spec's left/right/top/bottom order disagrees with `handle_drag` (whose order
is top, bottom, left, right) on a drag toward the lower-left of an anchor
near the screen corner. -/
theorem resolve_edge_order_counterexample :
    handle_drag_spec_order ⟨320, -120⟩ ⟨120, -120⟩ ⟨117, -116⟩ ⟨1000, 1000⟩
        true false ≠
      handle_drag ⟨320, -120⟩ ⟨120, -120⟩ ⟨117, -116⟩ ⟨1000, 1000⟩ true false := by
  have hold : DVec2.distance (⟨320, -120⟩ : DVec2) ⟨120, -120⟩ = 200 :=
    distance_eval (by norm_num) (by norm_num)
  have hnd : normalize_or ((⟨117, -116⟩ : DVec2) - ⟨120, -120⟩) =
      (1 / 5 : ℝ) • ((⟨117, -116⟩ : DVec2) - ⟨120, -120⟩) :=
    normalize_or_eval (by norm_num) (length_eval (by norm_num) (by norm_num))
  have hcand : (⟨120, -120⟩ : DVec2) + (200 : ℝ) • (1 / 5 : ℝ) •
      ((⟨117, -116⟩ : DVec2) - ⟨120, -120⟩) = ⟨0, 40⟩ := by
    norm_num
  have hminlen : drag_min_length ⟨120, -120⟩ ⟨0, 40⟩ = ⟨0, 40⟩ := by
    unfold drag_min_length
    rw [if_neg (by norm_num [DVec2.distance_squared, DVec2.length_squared,
      DVec2.dot, MIN_LENGTH])]
  have hminlen2 : drag_min_length ⟨120, -120⟩ ⟨-40, 0⟩ = ⟨-40, 0⟩ := by
    unfold drag_min_length
    rw [if_neg (by norm_num [DVec2.distance_squared, DVec2.length_squared,
      DVec2.dot, MIN_LENGTH])]
  have hcode : handle_drag ⟨320, -120⟩ ⟨120, -120⟩ ⟨117, -116⟩ ⟨1000, 1000⟩
      true false = ⟨0, 40⟩ := by
    show DVec2.clamp
      (drag_min_length ⟨120, -120⟩
        (drag_fix_distance ⟨320, -120⟩ ⟨120, -120⟩ ⟨117, -116⟩ ⟨1000, 1000⟩))
      DVec2.ZERO ⟨1000, 1000⟩ = ⟨0, 40⟩
    have hfd : drag_fix_distance ⟨320, -120⟩ ⟨120, -120⟩ ⟨117, -116⟩
        ⟨1000, 1000⟩ = ⟨0, 40⟩ := by
      simp only [drag_fix_distance]
      rw [hold, hnd, hcand, clamp_top_c5, clamp_bottom_c5, clamp_left_c5_snap,
        clamp_right_c5]
    rw [hfd, hminlen]
    ext <;> norm_num [DVec2.clamp]
  have hspec : handle_drag_spec_order ⟨320, -120⟩ ⟨120, -120⟩ ⟨117, -116⟩
      ⟨1000, 1000⟩ true false = ⟨0, 0⟩ := by
    show DVec2.clamp
      (drag_min_length ⟨120, -120⟩
        (closest_point_below_line_on_circle ⟨120, -120⟩
          (DVec2.distance (⟨320, -120⟩ : DVec2) ⟨120, -120⟩) ⟨1000, 1000⟩
          DVec2.X
          (closest_point_below_line_on_circle ⟨120, -120⟩
            (DVec2.distance (⟨320, -120⟩ : DVec2) ⟨120, -120⟩) DVec2.ZERO
            DVec2.X
            (closest_point_below_line_on_circle ⟨120, -120⟩
              (DVec2.distance (⟨320, -120⟩ : DVec2) ⟨120, -120⟩) ⟨1000, 1000⟩
              DVec2.Y
              (closest_point_below_line_on_circle ⟨120, -120⟩
                (DVec2.distance (⟨320, -120⟩ : DVec2) ⟨120, -120⟩) DVec2.ZERO
                DVec2.Y
                ((⟨120, -120⟩ : DVec2) +
                  (DVec2.distance (⟨320, -120⟩ : DVec2) ⟨120, -120⟩) •
                    normalize_or ((⟨117, -116⟩ : DVec2) - ⟨120, -120⟩)))))))
      DVec2.ZERO ⟨1000, 1000⟩ = ⟨0, 0⟩
    rw [hold, hnd, hcand, clamp_left_c5_fixed, clamp_right_c5, clamp_top_c5,
      clamp_bottom_c5, hminlen2]
    ext <;> norm_num [DVec2.clamp]
  rw [hcode, hspec]
  exact fun h => absurd (congrArg DVec2.y h) (by norm_num)

end Ruler

namespace Ruler

/-! ### C8: the bounding rectangle -/

theorem rtz_intCast (n : ℤ) : rtz ((n : ℤ) : ℝ) = n := by
  unfold rtz
  split_ifs with h
  · exact Int.floor_intCast n
  · exact Int.ceil_intCast n

/-- Evaluate the truncation on a value shown equal to an integer. -/
theorem rtz_eval {x : ℝ} {n : ℤ} (h : x = (n : ℝ)) : rtz x = n := by
  rw [h, rtz_intCast]

theorem rtz_nonneg {x : ℝ} (h : 0 ≤ x) : 0 ≤ rtz x := by
  unfold rtz
  rw [if_pos h]
  exact Int.floor_nonneg.mpr h

theorem as_i16_of_range {x : ℝ} (h1 : -32768 ≤ rtz x) (h2 : rtz x ≤ 32767) :
    as_i16 x = rtz x := by
  unfold as_i16
  rw [max_eq_right h1, min_eq_right h2]

theorem as_u16_of_range {x : ℝ} (h0 : 0 ≤ rtz x) (h : rtz x ≤ 65535) :
    as_u16 x = rtz x := by
  unfold as_u16
  rw [max_eq_right h0, min_eq_right h]

/-- Evaluate the `i16` narrowing on an in-range integer value. -/
theorem as_i16_eval {x : ℝ} {n : ℤ} (h : x = (n : ℝ)) (h1 : -32768 ≤ n)
    (h2 : n ≤ 32767) : as_i16 x = n := by
  unfold as_i16
  rw [rtz_eval h, max_eq_right h1, min_eq_right h2]

/-- Evaluate the `u16` narrowing on an in-range integer value. -/
theorem as_u16_eval {x : ℝ} {n : ℤ} (h : x = (n : ℝ)) (h1 : 0 ≤ n)
    (h2 : n ≤ 65535) : as_u16 x = n := by
  unfold as_u16
  rw [rtz_eval h, max_eq_right h1, min_eq_right h2]

/-- C8 (amended): as long as the truncated values fit the `i16` / `u16`
ranges of the geometry fields, `compute_window_geometry` is exactly the
claimed margin-expanded truncated rectangle, and the concrete example
evaluates to `(60, 60, 280, 80)`. -/
theorem bounds_spec_in_range (pfrom pto : DVec2)
    (h1 : -32768 ≤ rtz (min pfrom.x pto.x - RULER_HALF_WIDTH))
    (h2 : rtz (min pfrom.x pto.x - RULER_HALF_WIDTH) ≤ 32767)
    (h3 : -32768 ≤ rtz (min pfrom.y pto.y - RULER_HALF_WIDTH))
    (h4 : rtz (min pfrom.y pto.y - RULER_HALF_WIDTH) ≤ 32767)
    (h5 : rtz (max pfrom.x pto.x + RULER_HALF_WIDTH -
      (min pfrom.x pto.x - RULER_HALF_WIDTH)) ≤ 65535)
    (h6 : rtz (max pfrom.y pto.y + RULER_HALF_WIDTH -
      (min pfrom.y pto.y - RULER_HALF_WIDTH)) ≤ 65535) :
    compute_window_geometry pfrom pto = bounds_spec pfrom pto ∧
    compute_window_geometry ⟨100, 100⟩ ⟨300, 100⟩ = ⟨60, 60, 280, 80⟩ := by
  constructor
  · have hwnn : 0 ≤ rtz (max pfrom.x pto.x + RULER_HALF_WIDTH -
        (min pfrom.x pto.x - RULER_HALF_WIDTH)) := by
      refine rtz_nonneg ?_
      have hmm : min pfrom.x pto.x ≤ max pfrom.x pto.x := min_le_max
      simp only [RULER_HALF_WIDTH]
      linarith
    have hhnn : 0 ≤ rtz (max pfrom.y pto.y + RULER_HALF_WIDTH -
        (min pfrom.y pto.y - RULER_HALF_WIDTH)) := by
      refine rtz_nonneg ?_
      have hmm : min pfrom.y pto.y ≤ max pfrom.y pto.y := min_le_max
      simp only [RULER_HALF_WIDTH]
      linarith
    simp only [compute_window_geometry, bounds_spec, WindowGeometry.mk.injEq]
    exact ⟨as_i16_of_range h1 h2, as_i16_of_range h3 h4,
      as_u16_of_range hwnn h5, as_u16_of_range hhnn h6⟩
  · simp only [compute_window_geometry, WindowGeometry.mk.injEq]
    exact ⟨as_i16_eval (by norm_num [RULER_HALF_WIDTH]) (by norm_num) (by norm_num),
      as_i16_eval (by norm_num [RULER_HALF_WIDTH]) (by norm_num) (by norm_num),
      as_u16_eval (by norm_num [RULER_HALF_WIDTH]) (by norm_num) (by norm_num),
      as_u16_eval (by norm_num [RULER_HALF_WIDTH]) (by norm_num) (by norm_num)⟩

/-- Witness for C8 at the spec's worked example. -/
theorem bounds_spec_in_range_witness :
    compute_window_geometry ⟨100, 100⟩ ⟨300, 100⟩ =
      bounds_spec ⟨100, 100⟩ ⟨300, 100⟩ ∧
    compute_window_geometry ⟨100, 100⟩ ⟨300, 100⟩ = ⟨60, 60, 280, 80⟩ :=
  bounds_spec_in_range ⟨100, 100⟩ ⟨300, 100⟩
    (by rw [rtz_eval (n := 60) (by norm_num [RULER_HALF_WIDTH])]; norm_num)
    (by rw [rtz_eval (n := 60) (by norm_num [RULER_HALF_WIDTH])]; norm_num)
    (by rw [rtz_eval (n := 60) (by norm_num [RULER_HALF_WIDTH])]; norm_num)
    (by rw [rtz_eval (n := 60) (by norm_num [RULER_HALF_WIDTH])]; norm_num)
    (by rw [rtz_eval (n := 280) (by norm_num [RULER_HALF_WIDTH])]; norm_num)
    (by rw [rtz_eval (n := 80) (by norm_num [RULER_HALF_WIDTH])]; norm_num)

/-- Counterexample for C8 as frozen: at coordinate 40000 the `i16` narrowing
saturates to 32767 instead of truncating to 39960. -/
theorem bounds_saturation_counterexample :
    compute_window_geometry ⟨40000, 0⟩ ⟨40000, 0⟩ ≠
      bounds_spec ⟨40000, 0⟩ ⟨40000, 0⟩ := by
  have hx : (compute_window_geometry ⟨40000, 0⟩ ⟨40000, 0⟩).x = 32767 := by
    simp only [compute_window_geometry]
    unfold as_i16
    rw [rtz_eval (n := 39960) (by norm_num [RULER_HALF_WIDTH])]
    norm_num
  have hx' : (bounds_spec ⟨40000, 0⟩ ⟨40000, 0⟩).x = 39960 := by
    simp only [bounds_spec]
    rw [rtz_eval (n := 39960) (by norm_num [RULER_HALF_WIDTH])]
  intro h
  rw [h, hx'] at hx
  norm_num at hx

end Ruler

namespace Ruler

/-! ### C7: the arc clamp's side test and nearest-intersection choice -/

theorem ci_c7 :
    circle_intersect ⟨0, 0⟩ 25 ⟨0, -20⟩ ⟨1, 0⟩ =
      some (⟨-15, -20⟩, ⟨15, -20⟩) := by
  have hq : solve_quadratic 1 0 (-225) = some (-15, 15) := by
    rw [solve_quadratic_eval (s := 30) (by norm_num)
      (sqrt_eval (by norm_num) (by norm_num))]
    norm_num
  have h1 : DVec2.length_squared (⟨1, 0⟩ : DVec2) = 1 := by
    norm_num [DVec2.length_squared, DVec2.dot]
  have h2 : 2 * DVec2.dot (⟨1, 0⟩ : DVec2) ((⟨0, -20⟩ : DVec2) - ⟨0, 0⟩) = 0 := by
    norm_num [DVec2.dot]
  have h3 : DVec2.distance_squared (⟨0, -20⟩ : DVec2) (⟨0, 0⟩ : DVec2) -
      (25 : ℝ) ^ 2 = -225 := by
    norm_num [DVec2.distance_squared, DVec2.length_squared, DVec2.dot]
  simp only [circle_intersect]
  rw [h1, h2, h3, hq]
  norm_num

/-- C7 (amended): the arc clamp returns the input point unchanged whenever
the oriented implicit-line expression at the point is strictly positive;
otherwise, when the line intersects the circle, it returns whichever
intersection point is nearer (by squared distance) to the input — which can
coincide with the input itself when the input lies on both the boundary line
and the circle; the spec's worked example evaluates to `(15, -20)`. -/
theorem clamp_spec (center : DVec2) (radius : ℝ) (start dir point p1 p2 : DVec2) :
    ((line_coeffs start dir center).1 * point.x +
        (line_coeffs start dir center).2.1 * point.y +
        (line_coeffs start dir center).2.2 > 0 →
      closest_point_below_line_on_circle center radius start dir point = point) ∧
    (¬((line_coeffs start dir center).1 * point.x +
        (line_coeffs start dir center).2.1 * point.y +
        (line_coeffs start dir center).2.2 > 0) →
      circle_intersect center radius start dir = some (p1, p2) →
      closest_point_below_line_on_circle center radius start dir point =
        if p1.distance_squared point < p2.distance_squared point then p1 else p2) ∧
    closest_point_below_line_on_circle ⟨0, 0⟩ 25 ⟨0, -20⟩ ⟨1, 0⟩ ⟨100, -30⟩ =
      ⟨15, -20⟩ :=
  ⟨fun h => cpblc_unchanged center radius start dir point h,
   fun h1 h2 => cpblc_snap center radius start dir point p1 p2 h1 h2,
   by
    rw [cpblc_snap ⟨0, 0⟩ 25 ⟨0, -20⟩ ⟨1, 0⟩ ⟨100, -30⟩ ⟨-15, -20⟩ ⟨15, -20⟩
      (by rw [line_coeffs_y_neg20]; norm_num) ci_c7]
    rw [if_neg (by norm_num [DVec2.distance_squared, DVec2.length_squared,
      DVec2.dot])]⟩

/-- Witness for C7: the forbidden-side branch applied at the spec's example. -/
theorem clamp_spec_witness :
    closest_point_below_line_on_circle ⟨0, 0⟩ 25 ⟨0, -20⟩ ⟨1, 0⟩ ⟨100, -30⟩ =
      if DVec2.distance_squared ⟨-15, -20⟩ ⟨100, -30⟩ <
          DVec2.distance_squared ⟨15, -20⟩ ⟨100, -30⟩ then
        (⟨-15, -20⟩ : DVec2)
      else ⟨15, -20⟩ :=
  (clamp_spec ⟨0, 0⟩ 25 ⟨0, -20⟩ ⟨1, 0⟩ ⟨100, -30⟩ ⟨-15, -20⟩ ⟨15, -20⟩).2.1
    (by rw [line_coeffs_y_neg20]; norm_num) ci_c7

/-- Counterexample for C7 as frozen: "unchanged exactly when the expression
is strictly positive" fails as a biconditional: a point on both the boundary
line and the circle is on the non-positive side yet is returned unchanged
(its nearest intersection is itself). -/
theorem clamp_boundary_counterexample :
    closest_point_below_line_on_circle ⟨0, 0⟩ 25 ⟨0, -20⟩ ⟨1, 0⟩ ⟨15, -20⟩ =
      ⟨15, -20⟩ ∧
    ¬((line_coeffs ⟨0, -20⟩ ⟨1, 0⟩ ⟨0, 0⟩).1 * (15 : ℝ) +
        (line_coeffs ⟨0, -20⟩ ⟨1, 0⟩ ⟨0, 0⟩).2.1 * (-20 : ℝ) +
        (line_coeffs ⟨0, -20⟩ ⟨1, 0⟩ ⟨0, 0⟩).2.2 > 0) := by
  constructor
  · rw [cpblc_snap ⟨0, 0⟩ 25 ⟨0, -20⟩ ⟨1, 0⟩ ⟨15, -20⟩ ⟨-15, -20⟩ ⟨15, -20⟩
      (by rw [line_coeffs_y_neg20]; norm_num) ci_c7]
    rw [if_neg (by norm_num [DVec2.distance_squared, DVec2.length_squared,
      DVec2.dot])]
  · rw [line_coeffs_y_neg20]
    norm_num

end Ruler

namespace Ruler

/-! ### C3: the spec's worked `resolve` example -/

theorem lc_top_c3 : line_coeffs DVec2.ZERO DVec2.X ⟨0, 0⟩ = (0, 1, 0) := by
  unfold line_coeffs rsign
  norm_num [Real.sqrt_one]

theorem lc_bottom_c3 :
    line_coeffs ⟨1000, 1000⟩ DVec2.X ⟨0, 0⟩ = (0, -1, 1000) := by
  unfold line_coeffs rsign
  norm_num [Real.sqrt_one]

theorem lc_left_c3 : line_coeffs DVec2.ZERO DVec2.Y ⟨0, 0⟩ = (-1, 0, 0) := by
  unfold line_coeffs rsign
  norm_num [Real.sqrt_one]

theorem lc_right_c3 :
    line_coeffs ⟨1000, 1000⟩ DVec2.Y ⟨0, 0⟩ = (-1, 0, 1000) := by
  unfold line_coeffs rsign
  norm_num [Real.sqrt_one]

theorem ci_x0_c3 :
    circle_intersect ⟨0, 0⟩ 100 DVec2.ZERO DVec2.Y =
      some (⟨0, -100⟩, ⟨0, 100⟩) := by
  have hq : solve_quadratic 1 0 (-10000) = some (-100, 100) := by
    rw [solve_quadratic_eval (s := 200) (by norm_num)
      (sqrt_eval (by norm_num) (by norm_num))]
    norm_num
  have h1 : DVec2.length_squared DVec2.Y = 1 := by
    norm_num [DVec2.length_squared, DVec2.dot]
  have h2 : 2 * DVec2.dot DVec2.Y (DVec2.ZERO - ⟨0, 0⟩) = 0 := by
    norm_num [DVec2.dot]
  have h3 : DVec2.distance_squared DVec2.ZERO (⟨0, 0⟩ : DVec2) -
      (100 : ℝ) ^ 2 = -10000 := by
    norm_num [DVec2.distance_squared, DVec2.length_squared, DVec2.dot]
  simp only [circle_intersect]
  rw [h1, h2, h3, hq]
  norm_num

/-- Full evaluation of the spec's worked example on the code: because the
anchor `(0, 0)` lies on the `x = 0` edge line, that edge clamp's incidental
orientation forbids `x > 0` and snaps the distance-locked candidate to
`(0, 100)`; minimum-length enforcement then yields `(0, 200)`. -/
theorem handle_drag_spec_example_eval :
    handle_drag ⟨100, 0⟩ ⟨0, 0⟩ ⟨100, 50⟩ ⟨1000, 1000⟩ true false = ⟨0, 200⟩ := by
  obtain ⟨u, hu0, hu2⟩ : ∃ u : ℝ, 0 < u ∧ u ^ 2 = 12500 :=
    ⟨Real.sqrt 12500, Real.sqrt_pos.mpr (by norm_num),
      Real.sq_sqrt (by norm_num)⟩
  have hne : u ≠ 0 := ne_of_gt hu0
  have hu5 : 5 < u := by nlinarith
  have hw1 : (0 : ℝ) < 10000 / u := by positivity
  have hw2 : (0 : ℝ) < 5000 / u := by positivity
  have hdiv : (5000 : ℝ) / u < 1000 := by
    rw [div_lt_iff₀ hu0]
    linarith
  have hlen : ((⟨100, 50⟩ : DVec2) - ⟨0, 0⟩).length = u := by
    refine length_eval (le_of_lt hu0) ?_
    rw [hu2]
    norm_num
  have hnd := normalize_or_eval hu0 hlen
  have hcand : (⟨0, 0⟩ : DVec2) + (100 : ℝ) • (1 / u) •
      ((⟨100, 50⟩ : DVec2) - ⟨0, 0⟩) = ⟨10000 / u, 5000 / u⟩ := by
    ext <;> simp only [add_x, add_y, smul_x, smul_y, sub_x, sub_y] <;>
      field_simp <;> ring
  have hold : DVec2.distance (⟨100, 0⟩ : DVec2) ⟨0, 0⟩ = 100 :=
    distance_eval (by norm_num) (by norm_num)
  have hfd : drag_fix_distance ⟨100, 0⟩ ⟨0, 0⟩ ⟨100, 50⟩ ⟨1000, 1000⟩ =
      ⟨0, 100⟩ := by
    simp only [drag_fix_distance]
    rw [hold, hnd, hcand]
    rw [cpblc_unchanged ⟨0, 0⟩ 100 DVec2.ZERO DVec2.X ⟨10000 / u, 5000 / u⟩
      (by rw [lc_top_c3]
          show (0 : ℝ) * (10000 / u) + 1 * (5000 / u) + 0 > 0
          linarith)]
    rw [cpblc_unchanged ⟨0, 0⟩ 100 ⟨1000, 1000⟩ DVec2.X ⟨10000 / u, 5000 / u⟩
      (by rw [lc_bottom_c3]
          show (0 : ℝ) * (10000 / u) + (-1) * (5000 / u) + 1000 > 0
          linarith)]
    rw [cpblc_snap ⟨0, 0⟩ 100 DVec2.ZERO DVec2.Y ⟨10000 / u, 5000 / u⟩
      ⟨0, -100⟩ ⟨0, 100⟩
      (by rw [lc_left_c3]
          refine not_lt.mpr ?_
          show (-1 : ℝ) * (10000 / u) + 0 * (5000 / u) + 0 ≤ 0
          linarith) ci_x0_c3]
    rw [if_neg (by
      refine not_lt.mpr ?_
      simp only [DVec2.distance_squared, DVec2.length_squared, DVec2.dot,
        sub_mk, sub_x, sub_y]
      nlinarith [hw2])]
    rw [cpblc_unchanged ⟨0, 0⟩ 100 ⟨1000, 1000⟩ DVec2.Y ⟨0, 100⟩
      (by rw [lc_right_c3]; norm_num)]
  have hmin : drag_min_length ⟨0, 0⟩ ⟨0, 100⟩ = ⟨0, 200⟩ := by
    unfold drag_min_length
    rw [if_pos (by norm_num [DVec2.distance_squared, DVec2.length_squared,
      DVec2.dot, MIN_LENGTH])]
    rw [normalize_or_eval (l := 100) (by norm_num)
      (length_eval (by norm_num) (by norm_num))]
    ext <;> norm_num [MIN_LENGTH]
  show DVec2.clamp
    (drag_min_length ⟨0, 0⟩
      (drag_fix_distance ⟨100, 0⟩ ⟨0, 0⟩ ⟨100, 50⟩ ⟨1000, 1000⟩))
    DVec2.ZERO ⟨1000, 1000⟩ = ⟨0, 200⟩
  rw [hfd, hmin]
  ext <;> norm_num [DVec2.clamp]

/-- C3 (amended): `resolve((100,0), (0,0), cursor=(100,50), screen=(1000,1000),
fixDistance, no fixAngle)` returns `(0, 200)`, not the point at distance 100
along `normalize(100,50)`: the anchor sits on the left screen edge, so that
edge's arc clamp snaps the candidate to `(0, 100)` and the minimum-length
step extends it to `(0, 200)`. -/
theorem resolve_spec_example_value :
    handle_drag ⟨100, 0⟩ ⟨0, 0⟩ ⟨100, 50⟩ ⟨1000, 1000⟩ true false = ⟨0, 200⟩ :=
  handle_drag_spec_example_eval

/-- Counterexample for C3 as frozen: the returned point is `(0, 200)`, at
distance 200 from the anchor, not 100 as the claim requires. -/
theorem resolve_spec_example_counterexample :
    handle_drag ⟨100, 0⟩ ⟨0, 0⟩ ⟨100, 50⟩ ⟨1000, 1000⟩ true false = ⟨0, 200⟩ ∧
    DVec2.distance ⟨0, 0⟩
      (handle_drag ⟨100, 0⟩ ⟨0, 0⟩ ⟨100, 50⟩ ⟨1000, 1000⟩ true false) ≠ 100 := by
  refine ⟨handle_drag_spec_example_eval, ?_⟩
  rw [handle_drag_spec_example_eval,
    distance_eval (l := 200) (by norm_num) (by norm_num)]
  norm_num

end Ruler
